import Mathlib

/-!
Shallow embedding of `src/audioscoredataset.py` (the ASMD dataset accessor).

Conventions used throughout:
* Python `str` becomes `String`; numbers appearing in ground-truth
  annotations (pitches, onsets, offsets, velocities, instrument ids)
  become `ℚ` (numpy promotes the mixed columns to one numeric dtype);
  ground-truth support levels become `Int`.
* The object state of the Python `Dataset` class is the pair of its
  `data` (parsed manifest) and `paths` fields; a method that mutates the
  object is embedded as a function returning the new state.
* Fallible operations (`list.index`, out-of-range indexing, a local
  variable read before any loop iteration bound it, numpy shape errors
  on ragged input) are embedded with `Except Unit` or `Option`.
  The state left behind by a call that raises halfway is not modelled;
  no property below depends on it.
-/

/-- Head-of-list match: `needle` occurs at the very start of `hay`. -/
def leadMatch : List Char → List Char → Bool
  | [], _ => true
  | _ :: _, [] => false
  | a :: as, b :: bs => a == b && leadMatch as bs

/-- `needle` occurs contiguously somewhere inside `hay`. -/
def occursIn (n : List Char) : List Char → Bool
  | [] => leadMatch n []
  | b :: t => leadMatch n (b :: t) || occursIn n t

/-- Python's `needle in hay` on strings: substring containment. -/
def strIn (needle hay : String) : Bool := occursIn needle.data hay.data

/-! ## Manifest data model (the parsed JSON in `self.data`) -/

/-- One song descriptor of the manifest.  `sources` is `none` when the
song has no `"sources"` key; `ground_truth` follows the `[[str]]`
manifest shape (one list of ground-truth paths per source). -/
structure Song where
  composer : String
  instruments : List String
  recording : List String
  sources : Option (List (List String))
  ground_truth : List (List String)
deriving DecidableEq, Repr

/-- One dataset descriptor of the manifest; `ground_truth` is the
capability mapping kind ↦ support level, embedded as an assoc list. -/
structure DatasetDescr where
  name : String
  ensemble : Bool
  instruments : List String
  ground_truth : List (String × Int)
  songs : List Song
deriving DecidableEq, Repr

structure Manifest where
  install_dir : String
  datasets : List DatasetDescr
deriving DecidableEq, Repr

/-- The dynamic value held in the `source` slot of an item: the Python
code stores either a flat list of paths (initial `[]`, or
`sources['path'][idx]`) or the full list-of-lists `sources['path']`. -/
inductive SrcVal where
  | one (v : List String)
  | many (v : List (List String))
deriving DecidableEq, Repr

/-- The dynamic value held in the `gts` slot of an item: the whole
`song['ground_truth']` or the single entry `song['ground_truth'][idx]`. -/
inductive GtsVal where
  | whole (v : List (List String))
  | single (v : List String)
deriving DecidableEq, Repr

/-- One element of `self.paths`: the `[mix, source, gts]` triple. -/
structure Item where
  mix : List String
  source : SrcVal
  gts : GtsVal
deriving DecidableEq, Repr

/-- The keyword arguments of `Dataset.filter`, with their defaults. -/
structure Criteria where
  instrument : String := ""
  ensemble : Option Bool := none
  mixed : Bool := true
  sources : Bool := false
  all : Bool := false
  composer : String := ""
  datasets : List String := []
  ground_truth : List (String × Int) := []

/-- Object state of the Python `Dataset` class: parsed manifest plus the
`paths` field (initialised to `[]` in `__init__`). -/
structure Dataset where
  data : Manifest
  paths : List Item
deriving DecidableEq, Repr

/-! ## `Dataset.filter` -/

/-- Python dict lookup `d[k]` on the capability mapping (`none` = KeyError). -/
def lookupGT : List (String × Int) → String → Option Int
  | [], _ => none
  | (k, v) :: t, q => if k = q then some v else lookupGT t q

/-- The `for gt in ground_truth` loop of `filter`: a missing key raises
(KeyError); the first mismatching pair sets the flag false and breaks. -/
def gtFound (ds : List (String × Int)) : List (String × Int) → Except Unit Bool
  | [] => .ok true
  | (k, v) :: t =>
    match lookupGT ds k with
    | none => .error ()
    | some w => if w ≠ v then .ok false else gtFound ds t

/-- The dataset-level pass of `filter`: name membership, ensemble,
instrument membership and ground-truth support checks, in source order. -/
def dsFlag (c : Criteria) (d : DatasetDescr) : Except Unit Bool :=
  let f0 : Bool := if c.datasets.length > 0 then decide (d.name ∈ c.datasets) else true
  let f1 : Bool :=
    match c.ensemble with
    | none => f0
    | some e => if e = d.ensemble then f0 else false
  let f2 : Bool :=
    if c.instrument = "" then f1
    else if c.instrument ∈ d.instruments then f1 else false
  match gtFound d.ground_truth c.ground_truth with
  | .error e => .error e
  | .ok b => .ok (f2 && b)

/-- The song-level checks of `filter`.  Both checks only ever lower the
incoming flag, exactly as the Python code does: the flag is NOT reset
between songs of the same dataset. -/
def songFlag (c : Criteria) (flag : Bool) (s : Song) : Bool :=
  let f1 : Bool :=
    if c.instrument = "" then flag
    else if c.instrument ∈ s.instruments then flag else false
  if c.composer = "" then f1
  else if strIn c.composer s.composer then f1 else false

/-- Python `list.index`: position of the first occurrence (`none` = ValueError). -/
def firstIdx (a : String) : List String → Option Nat
  | [] => none
  | b :: t => if b = a then some 0 else (firstIdx a t).map (· + 1)

/-- Body of the `if FLAG:` block inside the song loop: builds the
`[mix, source, gts]` triple to append, or raises. -/
def buildItem (c : Criteria) (s : Song) : Except Unit Item :=
  let mixv : List String := if c.mixed then s.recording else []
  if c.sources && s.sources.isSome then
    match s.sources with
    | none => .ok ⟨mixv, .one [], .whole s.ground_truth⟩
    | some sp =>
      if c.all then .ok ⟨mixv, .many sp, .whole s.ground_truth⟩
      else
        match firstIdx c.instrument s.instruments with
        | none => .error ()
        | some i =>
          match sp.get? i with
          | none => .error ()
          | some sv =>
            match s.ground_truth.get? i with
            | none => .error ()
            | some gv => .ok ⟨mixv, .one sv, .single gv⟩
  else .ok ⟨mixv, .one [], .whole s.ground_truth⟩

/-- The inner `for song in mydataset['songs']` loop, threading the flag
(sticky across iterations) and the accumulated `self.paths`. -/
def filterSongs (c : Criteria) : Bool → List Song → List Item → Except Unit (Bool × List Item)
  | flag, [], acc => .ok (flag, acc)
  | flag, s :: t, acc =>
    let flag' := songFlag c flag s
    if flag' then
      match buildItem c s with
      | .error e => .error e
      | .ok it => filterSongs c flag' t (acc ++ [it])
    else filterSongs c flag' t acc

/-- The outer `for mydataset in self.data['datasets']` loop. -/
def filterDatasets (c : Criteria) : List DatasetDescr → List Item → Except Unit (List Item)
  | [], acc => .ok acc
  | d :: t, acc =>
    match dsFlag c d with
    | .error e => .error e
    | .ok flag =>
      if flag then
        match filterSongs c flag d.songs acc with
        | .error e => .error e
        | .ok p => filterDatasets c t p.2
      else filterDatasets c t acc

/-- `Dataset.filter`: returns `None` in Python; its observable effect is
the new object state, with items appended to the existing `paths`. -/
def Dataset.filter (d : Dataset) (c : Criteria) : Except Unit Dataset :=
  match filterDatasets c d.data.datasets d.paths with
  | .error e => .error e
  | .ok ps => .ok ⟨d.data, ps⟩

/-- The block of items produced by one `filter` call starting from an
empty accumulator. -/
def newItems (c : Criteria) (m : Manifest) : Except Unit (List Item) :=
  filterDatasets c m.datasets []

/-! ## Concrete manifests used in the theorems below -/

def songMozart : Song := ⟨"Mozart", ["violin"], ["a.wav"], none, [["a.gt"]]⟩

def songBach : Song := ⟨"Bach", ["violin"], ["b.wav"], none, [["b.gt"]]⟩

def dsMB : DatasetDescr := ⟨"D", false, ["violin"], [], [songMozart, songBach]⟩

def dsBM : DatasetDescr := ⟨"D", false, ["violin"], [], [songBach, songMozart]⟩

def mMB : Manifest := ⟨"dir", [dsMB]⟩

def mBM : Manifest := ⟨"dir", [dsBM]⟩

def cAch : Criteria := { composer := "ach" }

def itemBach : Item := ⟨["b.wav"], .one [], .whole [["b.gt"]]⟩

/-- Claim C1: a song admitted by the dataset-level pass should be kept
iff it satisfies the song-level predicates, independently of earlier
songs.  The code violates this: the flag falsified by `songMozart`
(composer "ach" not in "Mozart") is never reset, so `songBach`, which
passes every check, is dropped; with the two songs swapped the very same
song is kept.  This evaluates the embedded code at that failing input. -/
theorem claim1_flag_not_reset_between_songs :
    Dataset.filter ⟨mMB, []⟩ cAch = .ok ⟨mMB, []⟩ ∧
    Dataset.filter ⟨mBM, []⟩ cAch = .ok ⟨mBM, [itemBach]⟩ := by
  exact ⟨rfl, rfl⟩

/-! ## How `filter` threads its accumulator -/

/-- The song loop only ever appends to the incoming accumulator. -/
theorem filterSongs_acc (c : Criteria) (songs : List Song) :
    ∀ (flag : Bool) (acc : List Item),
      filterSongs c flag songs acc =
        (filterSongs c flag songs []).map (fun p => (p.1, acc ++ p.2)) := by
  induction songs with
  | nil => intro flag acc; simp [filterSongs, Except.map]
  | cons s t ih =>
    intro flag acc
    simp only [filterSongs]
    split
    · cases hb : buildItem c s with
      | error e => rfl
      | ok it =>
        show filterSongs c (songFlag c flag s) t (acc ++ [it]) =
          Except.map (fun p => (p.1, acc ++ p.2))
            (filterSongs c (songFlag c flag s) t ([] ++ [it]))
        rw [List.nil_append, ih (songFlag c flag s) (acc ++ [it]),
          ih (songFlag c flag s) [it]]
        cases filterSongs c (songFlag c flag s) t [] with
        | error e => rfl
        | ok p => simp [Except.map, List.append_assoc]
    · show filterSongs c (songFlag c flag s) t acc =
        Except.map (fun p => (p.1, acc ++ p.2)) (filterSongs c (songFlag c flag s) t [])
      exact ih (songFlag c flag s) acc

/-- The dataset loop only ever appends to the incoming accumulator. -/
theorem filterDatasets_acc (c : Criteria) (ds : List DatasetDescr) :
    ∀ acc : List Item,
      filterDatasets c ds acc = (filterDatasets c ds []).map (fun ps => acc ++ ps) := by
  induction ds with
  | nil => intro acc; simp [filterDatasets, Except.map]
  | cons d t ih =>
    intro acc
    simp only [filterDatasets]
    cases dsFlag c d with
    | error e => rfl
    | ok flag =>
      cases flag with
      | false =>
        show filterDatasets c t acc =
          Except.map (fun ps => acc ++ ps) (filterDatasets c t [])
        exact ih acc
      | true =>
        show (match filterSongs c true d.songs acc with
              | Except.error e => Except.error e
              | Except.ok p => filterDatasets c t p.2) =
          Except.map (fun ps => acc ++ ps)
            (match filterSongs c true d.songs [] with
             | Except.error e => Except.error e
             | Except.ok p => filterDatasets c t p.2)
        rw [filterSongs_acc c d.songs true acc]
        cases hfs : filterSongs c true d.songs [] with
        | error e => rfl
        | ok p =>
          obtain ⟨b2, ps2⟩ := p
          show filterDatasets c t (acc ++ ps2) =
            Except.map (fun ps => acc ++ ps) (filterDatasets c t ps2)
          rw [ih (acc ++ ps2), ih ps2]
          cases filterDatasets c t [] with
          | error e => rfl
          | ok q => simp [Except.map, List.append_assoc]

/-- A `filter` call leaves the manifest untouched and appends the block
computed from an empty accumulator to the existing `paths`. -/
theorem filter_spec (st : Dataset) (c : Criteria) :
    Dataset.filter st c = (newItems c st.data).map (fun B => ⟨st.data, st.paths ++ B⟩) := by
  unfold Dataset.filter newItems
  rw [filterDatasets_acc c st.data.datasets st.paths]
  cases filterDatasets c st.data.datasets [] with
  | error e => rfl
  | ok ps => simp [Except.map]

/-! ## Claims C2 and C4 -/

def dsB : DatasetDescr := ⟨"D", false, ["violin"], [], [songBach]⟩

def mB : Manifest := ⟨"dir", [dsB]⟩

def cNone : Criteria := {}

/-- Claim C2 counterexample: on a manifest whose single song matches,
the first `filter` call stores one item, and the second identical call
leaves TWO items — the second call's result is a longer sequence, not
the first call's result again. -/
theorem claim2_cex_second_call_grows :
    Dataset.filter ⟨mB, []⟩ cNone = .ok ⟨mB, [itemBach]⟩ ∧
    Dataset.filter ⟨mB, [itemBach]⟩ cNone = .ok ⟨mB, [itemBach, itemBach]⟩ ∧
    [itemBach, itemBach] ≠ [itemBach] := by
  exact ⟨rfl, rfl, by decide⟩

/-- Claim C2 (amended): `filter` is deterministic given the object
state, but accumulates: each call appends the same block `B` computed
from the manifest and criteria, so the second identical call yields the
first call's paths extended by another copy of `B` (equal to the first
result only when `B` is empty). -/
theorem claim2_filter_appends_each_call (st : Dataset) (c : Criteria) (B : List Item)
    (h : newItems c st.data = .ok B) :
    Dataset.filter st c = .ok ⟨st.data, st.paths ++ B⟩ ∧
    Dataset.filter ⟨st.data, st.paths ++ B⟩ c = .ok ⟨st.data, st.paths ++ B ++ B⟩ := by
  constructor
  · rw [filter_spec, h]; rfl
  · rw [filter_spec, h]; rfl

/-- Witness for C2 at a concrete manifest. -/
theorem claim2_wit :
    newItems cNone mB = .ok [itemBach] ∧
    Dataset.filter ⟨mB, []⟩ cNone = .ok ⟨mB, [] ++ [itemBach]⟩ ∧
    Dataset.filter ⟨mB, [] ++ [itemBach]⟩ cNone = .ok ⟨mB, [] ++ [itemBach] ++ [itemBach]⟩ := by
  exact ⟨rfl, claim2_filter_appends_each_call ⟨mB, []⟩ cNone [itemBach] rfl⟩

def itemDummy : Item := ⟨["z.wav"], .one [], .whole []⟩

/-- Claim C4 counterexample: `filter` does not return the matched
sequence to the caller; it mutates the object's `paths` field, and when
that field was non-empty beforehand the resulting state differs from the
pre-call state and its `paths` differ from the matched sequence
(`[itemBach]`) of this call. -/
theorem claim4_cex_state_change :
    Dataset.filter ⟨mB, [itemDummy]⟩ cNone = .ok ⟨mB, [itemDummy, itemBach]⟩ ∧
    (⟨mB, [itemDummy, itemBach]⟩ : Dataset) ≠ ⟨mB, [itemDummy]⟩ ∧
    [itemDummy, itemBach] ≠ [itemBach] := by
  exact ⟨rfl, by decide, by decide⟩

/-- Claim C4 (amended): `filter` returns no value; its one side effect
is appending the matched items to the object's `paths` field, and the
manifest (`data` field) is not mutated. -/
theorem claim4_filter_frame (st : Dataset) (c : Criteria) (B : List Item)
    (h : newItems c st.data = .ok B) :
    Dataset.filter st c = .ok ⟨st.data, st.paths ++ B⟩ := by
  rw [filter_spec, h]; rfl

/-- Witness for C4 at a concrete state with a pre-existing item. -/
theorem claim4_wit :
    newItems cNone mB = .ok [itemBach] ∧
    Dataset.filter ⟨mB, [itemDummy]⟩ cNone = .ok ⟨mB, [itemDummy] ++ [itemBach]⟩ := by
  exact ⟨rfl, claim4_filter_frame ⟨mB, [itemDummy]⟩ cNone [itemBach] rfl⟩

/-! ## Claim C6 -/

/-- `list.index` fails exactly when the element is absent. -/
theorem firstIdx_eq_none (a : String) (l : List String) (h : a ∉ l) :
    firstIdx a l = none := by
  induction l with
  | nil => rfl
  | cons b t ih =>
    rw [List.mem_cons, not_or] at h
    have hb : ¬ b = a := fun e => h.1 e.symm
    simp [firstIdx, hb, ih h.2]

def songC6 : Song := ⟨"X", ["violin"], ["m.wav"], some [["s.wav"]], [["g.gz"]]⟩

def dsC6 : DatasetDescr := ⟨"E", false, ["violin", "cello"], [], [songC6]⟩

def mC6 : Manifest := ⟨"dir", [dsC6]⟩

def cC6 : Criteria := { instrument := "cello", sources := true }

/-- Claim C6 counterexample: with `sources=true`, `all=false` and a
(non-empty) requested instrument `"cello"` absent from the song's
instrument list, `filter` does NOT fail: the song-level instrument check
falsifies the flag first, and the song is silently skipped — the call
succeeds with an empty result. -/
theorem claim6_cex_silent_skip :
    cC6.instrument ∉ songC6.instruments ∧
    Dataset.filter ⟨mC6, []⟩ cC6 = .ok ⟨mC6, []⟩ := by
  exact ⟨by decide, rfl⟩

/-- Claim C6 (amended): for a song carrying a `sources` field evaluated
with `sources=true`, `all=false`, whose instrument list does not contain
the requested instrument: when the requested instrument is non-empty the
song-level check lowers the flag, so the song is silently skipped and no
lookup is attempted; the index-lookup failure occurs only when the
requested instrument is the empty string (unset), in which case the
song-level check is bypassed and `list.index` raises. -/
theorem claim6_lookup_error_only_when_instrument_unset
    (c : Criteria) (s : Song) (hs : c.sources = true) (ha : c.all = false)
    (hsp : s.sources.isSome = true) (hni : c.instrument ∉ s.instruments) :
    (c.instrument ≠ "" → songFlag c true s = false) ∧
    (c.instrument = "" → buildItem c s = .error ()) := by
  constructor
  · intro hne
    simp [songFlag, hne, hni, ite_self]
  · intro hi
    cases hsrc : s.sources with
    | none => rw [hsrc] at hsp; exact absurd hsp (by simp)
    | some sp =>
      simp [buildItem, hs, ha, hsrc, firstIdx_eq_none c.instrument s.instruments hni]

/-- Witness for C6 at a concrete criteria/song pair. -/
theorem claim6_wit :
    cC6.sources = true ∧ cC6.all = false ∧ songC6.sources.isSome = true ∧
    cC6.instrument ∉ songC6.instruments ∧ songFlag cC6 true songC6 = false := by
  exact ⟨rfl, rfl, rfl, by decide,
    (claim6_lookup_error_only_when_instrument_unset cC6 songC6 rfl rfl rfl
      (by decide)).1 (by decide)⟩

/-! ## Ground-truth records and the normalizer inside `get_score` -/

/-- The numeric placeholder the code uses for missing values. -/
def sentinel : ℚ := -255

/-- One score-type entry of a decoded ground-truth file. -/
structure STEntry where
  pitches : List ℚ
  onsets : List ℚ
  offsets : List ℚ
  velocities : List ℚ
deriving DecidableEq, Repr

inductive ScoreType where
  | non_aligned
  | broad_alignment
  | precise_alignment
deriving DecidableEq, Repr

/-- One ground-truth record; the beats field plays no role in the
properties below and is omitted. -/
structure GtRecord where
  non_aligned : STEntry
  broad_alignment : STEntry
  precise_alignment : STEntry
  instrument : ℚ
deriving DecidableEq, Repr

def GtRecord.entry (g : GtRecord) : ScoreType → STEntry
  | .non_aligned => g.non_aligned
  | .broad_alignment => g.broad_alignment
  | .precise_alignment => g.precise_alignment

/-- `np.append(xs, [-255] * n)`. -/
def pad (xs : List ℚ) (n : Nat) : List ℚ := xs ++ List.replicate n sentinel

/-- Lines 277-306 of `get_score`: the per-record, non-truncating length
reconciliation of the four annotation columns.  `missing` is a Python
int that may be negative; `[-255] * missing` is empty for negative
`missing`, which `Int.toNat` reproduces.  Note the code tests `offs`
and `vel` for emptiness only AFTER appending the pad. -/
def reconcile (e : STEntry) : STEntry :=
  let pitches0 := e.pitches
  let ons0 := if e.onsets.length = 0 then List.replicate pitches0.length sentinel else e.onsets
  let missing : Int := (pitches0.length : Int) - (ons0.length : Int)
  let pitches1 := if missing < 0 then pad pitches0 (-missing).toNat else pitches0
  let ons1 := if missing > 0 then pad ons0 missing.toNat else ons0
  let offs0 := pad e.offsets missing.toNat
  let offs1 := if offs0.length = 0 then List.replicate ons1.length sentinel else offs0
  let vel0 := pad e.velocities missing.toNat
  let vel1 := if vel0.length = 0 then List.replicate ons1.length sentinel else vel0
  let missing2 : Int := (pitches1.length : Int) - (vel1.length : Int)
  let pitches2 := if missing2 < 0 then pad pitches1 (-missing2).toNat else pitches1
  let ons2 := if missing2 < 0 then pad ons1 (-missing2).toNat else ons1
  let offs2 := if missing2 < 0 then pad offs1 (-missing2).toNat else offs1
  let vel2 := if missing2 > 0 then pad vel1 missing2.toNat else vel1
  ⟨pitches2, ons2, offs2, vel2⟩

/-! ## Claim C3 -/

def entC3 : STEntry := ⟨[60, 62, 64], [0, 1/2], [], []⟩

/-- Claim C3: on the record with pitches=[60,62,64], onsets=[0.0,0.5]
and empty offsets and velocities, the claim expects offsets of length 3.
The code instead leaves `offsets = [-255]` (length 1): since
`missing = 1 > 0` the appended pad makes `offs` non-empty, so the
wholesale sentinel replacement never fires, and the final re-padding
step only pads `vel`.  The resulting columns are ragged (offsets length
1 against onsets length 3), breaking the documented `(n x 6)` shape. -/
theorem claim3_offsets_not_replaced :
    reconcile entC3 =
      ⟨[60, 62, 64], [0, 1/2, -255], [-255], [-255, -255, -255]⟩ ∧
    (reconcile entC3).offsets.length = 1 ∧
    (reconcile entC3).offsets.length ≠ (reconcile entC3).onsets.length := by
  refine ⟨rfl, rfl, by decide⟩

/-! ## Claim C9 -/

/-- Claim C9: on a score-type entry whose four sequences already have
equal lengths the non-truncate reconciliation is the identity, hence
applying it twice equals applying it once. -/
theorem claim9_reconcile_identity_on_equal_lengths (e : STEntry)
    (h1 : e.onsets.length = e.pitches.length)
    (h2 : e.offsets.length = e.pitches.length)
    (h3 : e.velocities.length = e.pitches.length) :
    reconcile e = e ∧ reconcile (reconcile e) = reconcile e := by
  obtain ⟨p, o, f, v⟩ := e
  simp only at h1 h2 h3
  have hmain : reconcile ⟨p, o, f, v⟩ = ⟨p, o, f, v⟩ := by
    cases o with
    | nil =>
      simp only [List.length_nil] at h1
      have hp : p = [] := List.length_eq_zero.mp h1.symm
      have hf : f = [] := List.length_eq_zero.mp (h2.trans h1.symm)
      have hv : v = [] := List.length_eq_zero.mp (h3.trans h1.symm)
      subst hp; subst hf; subst hv
      decide
    | cons x t =>
      simp only [List.length_cons] at h1
      have hp : p.length = t.length + 1 := h1.symm
      have hf : f.length = t.length + 1 := h2.trans hp
      have hv : v.length = t.length + 1 := h3.trans hp
      simp [reconcile, pad, hp, hf, hv]
  exact ⟨hmain, by rw [hmain, hmain]⟩

def entC9 : STEntry := ⟨[60], [1], [2], [3]⟩

/-- Witness for C9 at a concrete already-consistent entry. -/
theorem claim9_wit :
    entC9.onsets.length = entC9.pitches.length ∧
    entC9.offsets.length = entC9.pitches.length ∧
    entC9.velocities.length = entC9.pitches.length ∧
    (reconcile entC9 = entC9 ∧ reconcile (reconcile entC9) = reconcile entC9) := by
  exact ⟨rfl, rfl, rfl,
    claim9_reconcile_identity_on_equal_lengths entC9 rfl rfl rfl⟩

/-! ## `truncate_score` and claim C5 -/

def truncEntry (e : STEntry) (n : Nat) : STEntry :=
  ⟨e.pitches.take n, e.onsets.take n, e.offsets.take n, e.velocities.take n⟩

/-- One iteration of the first loop of `truncate_score`. -/
def truncStep (l : Nat) (e : STEntry) : Nat :=
  if e.onsets.length > 0 then min e.onsets.length (min l e.pitches.length) else l

/-- `length_to_truncate`: initialised to `len(gt['non_aligned']['pitches'])`
UNCONDITIONALLY, then lowered over the score types in source order. -/
def truncLen (g : GtRecord) : Nat :=
  truncStep (truncStep (truncStep g.non_aligned.pitches.length g.non_aligned)
    g.precise_alignment) g.broad_alignment

/-- `truncate_score` (module-level function, lines 387-407): truncates
the four lists of ALL THREE score types to `truncLen`. -/
def truncate_score (g : GtRecord) : GtRecord :=
  { g with
    non_aligned := truncEntry g.non_aligned (truncLen g)
    precise_alignment := truncEntry g.precise_alignment (truncLen g)
    broad_alignment := truncEntry g.broad_alignment (truncLen g) }

def entEmpty : STEntry := ⟨[], [], [], []⟩

def entTwo : STEntry := ⟨[1, 2], [3, 4], [5, 6], [7, 8]⟩

def gC5 : GtRecord := ⟨entEmpty, entTwo, entTwo, 9⟩

/-- Claim C5 counterexample: in `gC5` the only score-types with
non-empty onsets both have `min(onsets, pitches) = 2`, so the claimed
`L` is 2 and the claim predicts `precise_alignment.pitches` is truncated
to `[1,2]`.  The code initialises `length_to_truncate` with the
`non_aligned` pitches length (0) even though `non_aligned` has empty
onsets, and truncates everything to the empty list. -/
theorem claim5_cex_empty_onsets_still_contribute :
    gC5.non_aligned.onsets = [] ∧
    min gC5.broad_alignment.onsets.length gC5.broad_alignment.pitches.length = 2 ∧
    min gC5.precise_alignment.onsets.length gC5.precise_alignment.pitches.length = 2 ∧
    (truncate_score gC5).precise_alignment.pitches = [] ∧
    (truncate_score gC5).precise_alignment.pitches ≠ gC5.precise_alignment.pitches.take 2 := by
  refine ⟨rfl, rfl, rfl, rfl, by decide⟩

/-- Modelled from the amended claim's words: truncate every list of
every score type to the length `n`. -/
def applyTrunc (g : GtRecord) (n : Nat) : GtRecord :=
  { g with
    non_aligned := truncEntry g.non_aligned n
    broad_alignment := truncEntry g.broad_alignment n
    precise_alignment := truncEntry g.precise_alignment n }

/-- Modelled from the amended claim's words: the minimum of the
`non_aligned` pitches length together with, over the score-types whose
onsets are non-empty, those score-types' onsets and pitches lengths. -/
def amendedLen (g : GtRecord) : Nat :=
  (([g.non_aligned, g.precise_alignment, g.broad_alignment].filter
      (fun e => decide (0 < e.onsets.length))).map
      (fun e => min e.onsets.length e.pitches.length)).foldr min
    g.non_aligned.pitches.length

theorem truncLen_eq_amendedLen (g : GtRecord) : truncLen g = amendedLen g := by
  unfold truncLen amendedLen truncStep
  simp only [List.filter_cons, List.filter_nil, List.map_cons, List.map_nil,
    List.foldr_cons, List.foldr_nil, decide_eq_true_eq, gt_iff_lt]
  split_ifs <;>
    simp only [List.map_cons, List.map_nil, List.foldr_cons, List.foldr_nil] <;> omega

/-- Claim C5 (amended): a truncating call rewrites all three score-type
entries in place, truncating each of the four lists to `L`, where `L` is
the minimum of the `non_aligned` pitches length (which always
participates, even when `non_aligned` onsets are empty) and, over the
score-types with non-empty onsets, of their onsets and pitches
lengths. -/
theorem claim5_truncate_all_types_to_min (g : GtRecord) :
    truncate_score g = applyTrunc g (amendedLen g) := by
  unfold truncate_score applyTrunc
  rw [truncLen_eq_amendedLen]

/-! ## The note matrix built by `get_score` -/

/-- One row of the note matrix: pitch, onset, offset, velocity, MIDI
program of the instrument, source index. -/
structure Row where
  pitch : ℚ
  onset : ℚ
  off : ℚ
  vel : ℚ
  instr : ℚ
  num : ℚ
deriving DecidableEq, Repr

/-- Zip the four reconciled columns and the two constant columns into
one row per note. -/
def mkRows (instr num : ℚ) : List ℚ → List ℚ → List ℚ → List ℚ → List Row
  | a :: ps, b :: os, c :: fs, d :: vs =>
    ⟨a, b, c, d, instr, num⟩ :: mkRows instr num ps os fs vs
  | _, _, _, _ => []

/-- The per-record block `np.array([pitches, ons, offs, vel, instr, num])`:
a proper numeric `(6, n)` matrix exists only when the reconciled columns
have equal lengths; on ragged columns numpy cannot build it and the
subsequent transpose/argsort of `get_score` fails. -/
def buildBlock (i : Nat) (g : GtRecord) (sty : ScoreType) : Option (List Row) :=
  let e := reconcile (g.entry sty)
  if e.onsets.length = e.pitches.length ∧ e.offsets.length = e.pitches.length ∧
      e.velocities.length = e.pitches.length then
    some (mkRows g.instrument (i : ℚ) e.pitches e.onsets e.offsets e.velocities)
  else none

/-- The `for i, gt in enumerate(gts)` loop of `get_score`. -/
def buildBlocksGo (sty : ScoreType) : Nat → List GtRecord → Option (List (List Row))
  | _, [] => some []
  | i, g :: t =>
    match buildBlock i g sty, buildBlocksGo sty (i + 1) t with
    | some b, some bs => some (b :: bs)
    | _, _ => none

/-- Ascending insertion by the onset column. -/
def insertRow (r : Row) : List Row → List Row
  | [] => [r]
  | x :: t => if r.onset ≤ x.onset then r :: x :: t else x :: insertRow r t

/-- `mat[mat[:, 1].argsort()]`: the rows rearranged in ascending onset
order.  `np.argsort`'s order among equal onsets is unspecified; this
insertion sort realises one valid ascending arrangement. -/
def sortRows : List Row → List Row
  | [] => []
  | r :: t => insertRow r (sortRows t)

/-- The onset column is non-decreasing and bounded below by `q`. -/
def sortedFrom (q : ℚ) : List Row → Bool
  | [] => true
  | a :: t => decide (q ≤ a.onset) && sortedFrom a.onset t

/-- The onset column (column 1 of the note matrix) is non-decreasing. -/
def onsetSorted : List Row → Bool
  | [] => true
  | a :: t => sortedFrom a.onset t

theorem sortedFrom_insert (r : Row) :
    ∀ (l : List Row) (q : ℚ), sortedFrom q l = true → q ≤ r.onset →
      sortedFrom q (insertRow r l) = true
  | [], q, _, hq => by simp [insertRow, sortedFrom, hq]
  | x :: t, q, h, hq => by
    simp only [sortedFrom, Bool.and_eq_true, decide_eq_true_eq] at h
    by_cases hx : r.onset ≤ x.onset
    · simp only [insertRow, if_pos hx, sortedFrom, Bool.and_eq_true, decide_eq_true_eq]
      exact ⟨hq, hx, h.2⟩
    · have hxr : x.onset ≤ r.onset := le_of_not_le hx
      simp only [insertRow, if_neg hx, sortedFrom, Bool.and_eq_true, decide_eq_true_eq]
      exact ⟨h.1, sortedFrom_insert r t x.onset h.2 hxr⟩

theorem onsetSorted_insert (r : Row) (l : List Row) (h : onsetSorted l = true) :
    onsetSorted (insertRow r l) = true := by
  cases l with
  | nil => simp [insertRow, onsetSorted, sortedFrom]
  | cons x t =>
    simp only [onsetSorted] at h
    by_cases hx : r.onset ≤ x.onset
    · simp only [insertRow, if_pos hx, onsetSorted, sortedFrom, Bool.and_eq_true,
        decide_eq_true_eq]
      exact ⟨hx, h⟩
    · have hxr : x.onset ≤ r.onset := le_of_not_le hx
      simp only [insertRow, if_neg hx, onsetSorted]
      exact sortedFrom_insert r t x.onset h hxr

theorem onsetSorted_sortRows : ∀ l : List Row, onsetSorted (sortRows l) = true
  | [] => rfl
  | r :: t => onsetSorted_insert r (sortRows t) (onsetSorted_sortRows t)

/-- Lines 266-321 of `get_score` after the ground truths are decoded:
optional in-place truncation, per-record reconciliation and block
building, concatenation across records, transpose (one row per note)
and rearrangement by the onset column.  An empty record list raises
(`mat[0]` on an empty list). -/
def getScoreRows (gts : List GtRecord) (sty : ScoreType) (trunc : Bool) : Option (List Row) :=
  let gts2 := if trunc then gts.map truncate_score else gts
  match buildBlocksGo sty 0 gts2 with
  | none => none
  | some [] => none
  | some (b :: bs) => some (sortRows (List.flatten (b :: bs)))

/-! ## Retrieval facade -/

/-- `os.path.join(install_dir, relative)` (no absolute-path override in
the manifests of interest). -/
def joinpath (d f : String) : String := d ++ "/" ++ f

/-- The external audio reader `io.open_audio`: waveform and sample rate. -/
abbrev Reader := String → List ℚ × Nat

/-- The gzip-then-JSON decoder applied to one ground-truth file. -/
abbrev Decoder := String → GtRecord

/-- The `for fn in paths: audio, sr = io.open_audio(...)` loop: the
collected waveforms plus the last value bound to `sr` (`none` when the
loop body never ran, so that reading `sr` afterwards raises
UnboundLocalError). -/
def readLoop (rd : Reader) (dir : String) (fns : List String) :
    List (List ℚ) × Option Nat :=
  fns.foldl (fun acc fn =>
    (acc.1 ++ [(rd (joinpath dir fn)).1], some (rd (joinpath dir fn)).2)) ([], none)

/-- Elementwise sum of two equally-shaped waveforms (`none` on a shape
mismatch, where numpy raises). -/
def addLists : List ℚ → List ℚ → Option (List ℚ)
  | [], [] => some []
  | a :: as, b :: bs =>
    match addLists as bs with
    | some t => some ((a + b) :: t)
    | none => none
  | _, _ => none

def sumLists : List (List ℚ) → Option (List ℚ)
  | [] => none
  | [x] => some x
  | x :: y :: t =>
    match sumLists (y :: t) with
    | none => none
    | some s => addLists x s

/-- `np.mean(recordings, axis=0)`. -/
def meanLists (ls : List (List ℚ)) : Option (List ℚ) :=
  match sumLists ls with
  | none => none
  | some s => some (s.map (fun q => q / (ls.length : ℚ)))

/-- `Dataset.get_mix`: read every mix path, average sample-wise when
there is more than one file, return the last-read sample rate.  With no
registered path, `recordings[0]` and the unbound `sr` both raise. -/
def Dataset.get_mix (rd : Reader) (st : Dataset) (idx : Nat) : Option (List ℚ × Nat) :=
  match st.paths[idx]? with
  | none => none
  | some it =>
    let p := readLoop rd st.data.install_dir it.mix
    match p.2 with
    | none => none
    | some sr =>
      if p.1.length > 1 then
        match meanLists p.1 with
        | none => none
        | some m => some (m, sr)
      else
        match p.1.head? with
        | none => none
        | some r => some (r, sr)

/-- `Dataset.get_source`: read every source path; NOT averaged.  When the
stored source value is the list-of-lists `sources['path']`, joining a
path with a list raises; when the path list is empty the loop never
binds `sr` and the return statement raises UnboundLocalError. -/
def Dataset.get_source (rd : Reader) (st : Dataset) (idx : Nat) :
    Option (List (List ℚ) × Nat) :=
  match st.paths[idx]? with
  | none => none
  | some it =>
    match it.source with
    | .many _ => none
    | .one fns =>
      let p := readLoop rd st.data.install_dir fns
      match p.2 with
      | none => none
      | some sr => some (p.1, sr)

/-- `Dataset.get_gts`: decode every stored ground-truth path.  When the
stored value is the whole list-of-lists, joining a path with a list
raises. -/
def Dataset.get_gts (dec : Decoder) (st : Dataset) (idx : Nat) : Option (List GtRecord) :=
  match st.paths[idx]? with
  | none => none
  | some it =>
    match it.gts with
    | .whole _ => none
    | .single fns => some (fns.map (fun fn => dec (joinpath st.data.install_dir fn)))

/-- `Dataset.get_item`: compose the three accessors. -/
def Dataset.get_item (rd : Reader) (dec : Decoder) (st : Dataset) (idx : Nat) :
    Option ((List ℚ × Nat) × (List (List ℚ) × Nat) × List GtRecord) :=
  match Dataset.get_mix rd st idx with
  | none => none
  | some mx =>
    match Dataset.get_source rd st idx with
    | none => none
    | some srcs =>
      match Dataset.get_gts dec st idx with
      | none => none
      | some gts => some (mx, srcs, gts)

/-- `Dataset.get_score`: decode the ground truths, then normalize and
sort them into the note matrix. -/
def Dataset.get_score (dec : Decoder) (st : Dataset) (idx : Nat) (sty : ScoreType)
    (trunc : Bool) : Option (List Row) :=
  match Dataset.get_gts dec st idx with
  | none => none
  | some gts => getScoreRows gts sty trunc

/-! ## Claim C7 -/

/-- Claim C7: whenever `get_score` succeeds, the returned note matrix is
non-decreasing in column 1 (onset) across all rows of all sources. -/
theorem claim7_note_matrix_sorted_by_onset (dec : Decoder) (st : Dataset) (idx : Nat)
    (sty : ScoreType) (trunc : Bool) (rows : List Row)
    (h : Dataset.get_score dec st idx sty trunc = some rows) :
    onsetSorted rows = true := by
  unfold Dataset.get_score at h
  cases hg : Dataset.get_gts dec st idx with
  | none => rw [hg] at h; exact absurd h (by simp)
  | some gts =>
    rw [hg] at h
    simp only [getScoreRows] at h
    cases hb : buildBlocksGo sty 0 (if trunc then gts.map truncate_score else gts) with
    | none => rw [hb] at h; exact absurd h (by simp)
    | some blocks =>
      rw [hb] at h
      cases blocks with
      | nil => exact absurd h (by simp)
      | cons b bs =>
        simp only [Option.some.injEq] at h
        rw [← h]
        exact onsetSorted_sortRows _

def entW : STEntry := ⟨[60, 62], [1, 0], [2, 3], [10, 20]⟩

def gW : GtRecord := ⟨entW, entW, entW, 7⟩

def decW : Decoder := fun _ => gW

def itW7 : Item := ⟨[], .one [], .single ["g1"]⟩

def stW7 : Dataset := ⟨⟨"d", []⟩, [itW7]⟩

def rowsW : List Row := [⟨62, 0, 3, 20, 7, 0⟩, ⟨60, 1, 2, 10, 7, 0⟩]

/-- Witness for C7 at a concrete item whose onsets arrive out of order. -/
theorem claim7_wit :
    Dataset.get_score decW stW7 0 ScoreType.non_aligned false = some rowsW ∧
    onsetSorted rowsW = true := by
  exact ⟨rfl,
    claim7_note_matrix_sorted_by_onset decW stW7 0 ScoreType.non_aligned false rowsW rfl⟩

/-! ## Claim C8 -/

theorem addLists_eq_zipWith :
    ∀ (w1 w2 : List ℚ), w1.length = w2.length →
      addLists w1 w2 = some (List.zipWith (fun a b => a + b) w1 w2)
  | [], [], _ => rfl
  | a :: as, b :: bs, h => by
    have h2 : as.length = bs.length := by simpa using h
    simp [addLists, addLists_eq_zipWith as bs h2]
  | [], _ :: _, h => by simp at h
  | _ :: _, [], h => by simp at h

theorem meanLists_pair (w1 w2 : List ℚ) (h : w1.length = w2.length) :
    meanLists [w1, w2] = some (List.zipWith (fun a b => (a + b) / 2) w1 w2) := by
  simp [meanLists, sumLists, addLists_eq_zipWith w1 w2 h, List.map_zipWith, Nat.cast_ofNat]

/-- Claim C8: `get_mix` on an item with one registered mix path returns
that file's waveform unchanged (no averaging), and on an item with two
mix paths whose waveforms have the same sample count it returns their
elementwise arithmetic mean (with the sample rate of the last file
read). -/
theorem claim8_get_mix_single_and_pair :
    (∀ (rd : Reader) (st : Dataset) (i : Nat) (it : Item) (fn : String),
      st.paths[i]? = some it → it.mix = [fn] →
      Dataset.get_mix rd st i = some (rd (joinpath st.data.install_dir fn))) ∧
    (∀ (rd : Reader) (st : Dataset) (i : Nat) (it : Item) (f1 f2 : String),
      st.paths[i]? = some it → it.mix = [f1, f2] →
      (rd (joinpath st.data.install_dir f1)).1.length =
        (rd (joinpath st.data.install_dir f2)).1.length →
      Dataset.get_mix rd st i =
        some (List.zipWith (fun a b => (a + b) / 2)
            (rd (joinpath st.data.install_dir f1)).1
            (rd (joinpath st.data.install_dir f2)).1,
          (rd (joinpath st.data.install_dir f2)).2)) := by
  constructor
  · intro rd st i it fn hget hmix
    simp [Dataset.get_mix, hget, hmix, readLoop]
  · intro rd st i it f1 f2 hget hmix hlen
    simp [Dataset.get_mix, hget, hmix, readLoop, meanLists_pair _ _ hlen]

def rdW8 : Reader := fun p => if p = joinpath "d" "a" then ([1, 3], 10) else ([5, 7], 20)

def itW8 : Item := ⟨["a", "b"], .one [], .single []⟩

def stW8 : Dataset := ⟨⟨"d", []⟩, [itW8]⟩

/-- Witness for C8 at a concrete two-file item. -/
theorem claim8_wit :
    stW8.paths[0]? = some itW8 ∧ itW8.mix = ["a", "b"] ∧
    (rdW8 (joinpath stW8.data.install_dir "a")).1.length =
      (rdW8 (joinpath stW8.data.install_dir "b")).1.length ∧
    Dataset.get_mix rdW8 stW8 0 =
      some (List.zipWith (fun a b => (a + b) / 2)
          (rdW8 (joinpath stW8.data.install_dir "a")).1
          (rdW8 (joinpath stW8.data.install_dir "b")).1,
        (rdW8 (joinpath stW8.data.install_dir "b")).2) := by
  exact ⟨rfl, rfl, rfl,
    claim8_get_mix_single_and_pair.2 rdW8 stW8 0 itW8 "a" "b" rfl rfl rfl⟩

/-! ## Claim C10 -/

/-- Claim C10: `filter` with `sources=false` (its default) always stores
an empty source-path list; on such an item `get_source` fails (the loop
never binds `sr`, so the return statement raises) instead of returning
an empty waveform list with a rate, and `get_item`, which always calls
`get_source`, fails with it. -/
theorem claim10_empty_sources_break_get_source :
    (∀ (c : Criteria) (s : Song), c.sources = false →
      buildItem c s =
        .ok ⟨if c.mixed then s.recording else [], .one [], .whole s.ground_truth⟩) ∧
    (∀ (rd : Reader) (dec : Decoder) (st : Dataset) (i : Nat) (it : Item),
      st.paths[i]? = some it → it.source = .one [] →
      Dataset.get_source rd st i = none ∧ Dataset.get_item rd dec st i = none) := by
  constructor
  · intro c s h
    simp [buildItem, h]
  · intro rd dec st i it hget hsrc
    have hs : Dataset.get_source rd st i = none := by
      simp [Dataset.get_source, hget, hsrc, readLoop]
    refine ⟨hs, ?_⟩
    cases hm : Dataset.get_mix rd st i with
    | none => simp [Dataset.get_item, hm]
    | some mx => simp [Dataset.get_item, hm, hs]

/-- Witness for C10 at a concrete filter output item. -/
theorem claim10_wit :
    cNone.sources = false ∧
    (⟨mB, [itemBach]⟩ : Dataset).paths[0]? = some itemBach ∧
    itemBach.source = SrcVal.one [] ∧
    buildItem cNone songBach =
      .ok ⟨if cNone.mixed then songBach.recording else [], .one [],
        .whole songBach.ground_truth⟩ ∧
    (Dataset.get_source rdW8 ⟨mB, [itemBach]⟩ 0 = none ∧
      Dataset.get_item rdW8 decW ⟨mB, [itemBach]⟩ 0 = none) := by
  exact ⟨rfl, rfl, rfl,
    claim10_empty_sources_break_get_source.1 cNone songBach rfl,
    claim10_empty_sources_break_get_source.2 rdW8 decW ⟨mB, [itemBach]⟩ 0 itemBach rfl rfl⟩
